import Mathlib

set_option maxHeartbeats 1000000

/-!
Shallow embedding of `internal/api/server.go` of the issuer-node repository.

The Go `Server` holds three service interfaces (identity, claims, schema).
Every collaborator call that `server.go` makes is modelled as a field of the
`Server` structure below: a Lean function returning `Except String α` (or
`Option String` for calls whose only observable outcome is an error).  The
handlers `createClaim`, `revokeClaim`, `createIdentity` and `health` are
transcribed from the Go source, statement by statement.  In addition to the
Go return value `(response, error)`, `createClaim` and `revokeClaim` record a
trace of the collaborator calls they perform, so that temporal properties
("Save is never invoked", "no collaborator is invoked") can be stated.
-/

/-- A dynamically-typed Go value (`interface\x7b\x7d`), as far as the handlers
inspect it: the only inspection performed by `server.go` is the type
assertion `.(string)` on `schema.Metadata.Uris["jsonLdContext"]`. -/
inductive GoVal where
  | str (s : String)
  | other
deriving DecidableEq, Repr

/-- A parsed DID (`core.DID`); `str` is what `did.String()` returns. -/
structure DID where
  str : String
deriving DecidableEq, Repr

/-- Schema metadata (`processor.SchemaMetadata`): the `Uris` map, modelled as
an association list since the handler only performs a keyed lookup. -/
structure SchemaMetadata where
  uris : List (String × GoVal)
deriving DecidableEq, Repr

/-- A resolved schema (`jsonSuite.Schema` as used by the handler). -/
structure Schema where
  metadata : SchemaMetadata
deriving DecidableEq, Repr

/-- The Go map lookup `m.Uris[k]` followed by the type assertion `.(string)`:
returns `some s` exactly when the key is present and its value is a string. -/
def lookupStr (l : List (String × GoVal)) (k : String) : Option String :=
  match l.lookup k with
  | some (GoVal.str s) => some s
  | _ => none

/-- A credential-status descriptor (`verifiable.CredentialStatus`). -/
structure CredentialStatus where
  id : String
deriving DecidableEq, Repr

/-- A verifiable credential (`verifiable.W3CCredential`); the handler reads
only its `CredentialStatus` field, the rest is opaque. -/
structure VC where
  credentialStatus : CredentialStatus
  payload : GoVal
deriving DecidableEq, Repr

/-- A core claim (`core.Claim`), opaque to the handler. -/
structure CoreClaim where
  blob : GoVal
deriving DecidableEq, Repr

/-- The issuer's auth claim (`domain.Claim` in its auth role); the handler
reads only its revocation nonce (an int64 in Go, hence `Int`). -/
structure AuthClaim where
  revNonce : Int
deriving DecidableEq, Repr

/-- Issuer data carried inside a signature proof; the handler writes its
`CredentialStatus` field. -/
structure IssuerData where
  credentialStatus : Option CredentialStatus
deriving DecidableEq, Repr

/-- A BJJ signature proof (`verifiable.BJJSignatureProof2021`). -/
structure BJJSignatureProof where
  issuerData : IssuerData
deriving DecidableEq, Repr

/-- The persisted domain claim (`domain.Claim`) as far as the handler touches
it: `server.go` stamps `Identifier` and `Issuer` and fills the three JSONB
fields `SignatureProof`, `Data` and `CredentialStatus` (modelled as `Option`,
`none` meaning not set); `schemaType` is the credential type recorded at
construction time. -/
structure Claim where
  identifier : Option String
  issuer : String
  schemaType : String
  signatureProof : Option String
  data : Option VC
  credentialStatus : Option CredentialStatus
deriving DecidableEq, Repr

/-- The record returned by the Claim Store's `Save`; `id` is what
`claimResp.ID.String()` yields. -/
structure ClaimRecord where
  id : String
deriving DecidableEq, Repr

/-- An identity state snapshot (`domain.IdentityState`), with the fields the
`CreateIdentity` handler copies into the response. -/
structure IdentityState where
  blockNumber : Option Int
  blockTimestamp : Option Int
  claimsTreeRoot : Option String
  createdAt : Int
  modifiedAt : Int
  previousState : Option String
  revocationTreeRoot : Option String
  rootOfRoots : Option String
  state : Option String
  status : String
  txID : Option String
deriving DecidableEq, Repr

/-- An identity (`domain.Identity`) as read by the handler. -/
structure Identity where
  identifier : String
  immutable : Bool
  relay : String
  state : IdentityState
deriving DecidableEq, Repr

/-- An error returned by the Claim Store's `Revoke`: either one for which
`errors.Is(err, repositories.ErrClaimDoesNotExist)` holds, or any other
error carrying its message. -/
inductive RevokeErr where
  | claimDoesNotExist
  | other (msg : String)
deriving DecidableEq, Repr

/-- The Go `errors.Is(err, repositories.ErrClaimDoesNotExist)` test. -/
def RevokeErr.isClaimDoesNotExist : RevokeErr → Bool
  | .claimDoesNotExist => true
  | .other _ => false

/-- The Go `err.Error()` on a revocation error. -/
def RevokeErr.msg : RevokeErr → String
  | .claimDoesNotExist => "claim does not exist"
  | .other m => m

/-- Go's conversion `uint64(n)` of a (possibly negative) signed integer:
reduction modulo 2^64. -/
def goUint64 (n : Int) : Nat := (n % 18446744073709551616).toNat

/-- The body of the create-claim request (`request.Body` of
`CreateClaimRequestObject`). -/
structure CreateClaimRequestBody where
  credentialSchema : String
  credentialSubject : GoVal
  expiration : Option Int
  type : String
  version : Nat
  subjectPosition : String
  merklizedRootPosition : String
deriving DecidableEq, Repr

/-- The create-claim request object: path identifier plus body. -/
structure CreateClaimRequestObject where
  identifier : String
  body : CreateClaimRequestBody
deriving DecidableEq, Repr

/-- The revoke-claim request object: path identifier plus int64 nonce. -/
structure RevokeClaimRequestObject where
  identifier : String
  nonce : Int
deriving DecidableEq, Repr

/-- The `CoreClaimOptions` passed to the schema service's `Process`. -/
structure CoreClaimOptions where
  revNonce : Int
  merklizedRootPosition : String
  version : Nat
  subjectPosition : String
  updatable : Bool
deriving DecidableEq, Repr

/-- Modelled from the spec: `ports.NewClaimRequest` (not under `src/`)
constructs the transient ClaimRequest value object from the arguments the
handler passes it ("a transient value object describing what is to be
claimed ... Constructed per issuance call; not persisted"). -/
structure ClaimRequest where
  schema : Schema
  did : DID
  credentialSchema : String
  credentialSubject : GoVal
  expiration : Option Int
  type : String
  version : Nat
  subjectPos : String
  merklizedRootPosition : String
deriving DecidableEq, Repr

/-- Modelled from the spec: the `ports.NewClaimRequest` constructor, a plain
field-by-field construction of the transient value object. -/
def newClaimRequest (schema : Schema) (did : DID) (credentialSchema : String)
    (credentialSubject : GoVal) (expiration : Option Int) (typ : String)
    (version : Nat) (subjectPosition merklizedRootPosition : String) : ClaimRequest :=
  ⟨schema, did, credentialSchema, credentialSubject, expiration, typ, version,
    subjectPosition, merklizedRootPosition⟩

/-- One collaborator call performed by a handler, together with the
arguments it was given; in particular `save` records the claim value that
was passed to the Claim Store. -/
inductive CallEvent where
  | parseDID (str : String)
  | loadSchema (uri : String)
  | randInt64
  | createVC (cr : ClaimRequest) (nonce : Int)
  | processSchema (schemaURL credentialType : String) (vc : VC) (opts : CoreClaimOptions)
  | fromClaimer (cc : CoreClaim) (schemaURL credentialType : String)
  | getAuthClaim (did : DID)
  | signClaimEntry (authClaim : AuthClaim) (cc : CoreClaim)
  | getRevocationSource (issuerDID : String) (nonce : Nat)
  | marshalProof (p : BJJSignatureProof)
  | setSignatureProof (json : String)
  | setData (vc : VC)
  | setCredentialStatus (cs : CredentialStatus)
  | save (c : Claim)
deriving DecidableEq, Repr

/-- The `Server` of `server.go`: configuration plus every collaborator call
the handlers make, each as an oracle function.  Pure library helpers that are
not under `src/` (`core.ParseDID`, `common.DefineMerklizedRootPosition`,
`rand.Int64`, `json.Marshal`, the pgtype `Set` calls) are likewise fields, so
that every behaviour of theirs is quantified over. -/
structure Server where
  cfgServerUrl : String
  cfgServerPort : Nat
  identityCreate : String → Except String Identity
  parseDID : String → Except String DID
  loadSchema : String → Except String Schema
  randInt64 : Except String Int
  createVC : ClaimRequest → Int → Except String VC
  defineMerklizedRootPosition : SchemaMetadata → String → String
  process : String → String → VC → CoreClaimOptions → Except String CoreClaim
  fromClaimerErr : CoreClaim → String → String → Option String
  getAuthClaim : DID → Except String AuthClaim
  signClaimEntry : AuthClaim → CoreClaim → Except String BJJSignatureProof
  getRevocationSource : String → Nat → CredentialStatus
  marshalProof : BJJSignatureProof → Except String String
  setSignatureProofErr : String → Option String
  setDataErr : VC → Option String
  setCredentialStatusErr : CredentialStatus → Option String
  save : Claim → Except String ClaimRecord
  revoke : String → Nat → String → Option RevokeErr

/-- Modelled from the spec: `domain.FromClaimer` (not under `src/`) builds
the persisted Claim shape from the CoreClaim, the schema reference and the
derived credential type ("Build the persisted Claim shape from the CoreClaim
+ schema reference + credentialType"); the data model lists the credential
type among the persisted record's fields, so on success the returned claim
records the given credential type; whether it fails is left to the oracle
`fromClaimerErr`.  `Identifier`, `Issuer` and the three JSONB fields are
stamped later by the handler, hence start out unset. -/
def fromClaimer (s : Server) (coreClaim : CoreClaim)
    (schemaURL credentialType : String) : Except String Claim :=
  match s.fromClaimerErr coreClaim schemaURL credentialType with
  | some e => .error e
  | none => .ok ⟨none, "", credentialType, none, none, none⟩

/-- The response object of `CreateClaim`: 201 with the created record id,
400 with a message, or 500 with a message. -/
inductive CreateClaimResponseObject where
  | r201 (id : String)
  | r400 (message : String)
  | r500 (message : String)
deriving DecidableEq, Repr

/-- Result of one run of the create-claim handler: the response object, the
Go `error` return value, and the trace of collaborator calls performed. -/
structure CreateClaimResult where
  resp : CreateClaimResponseObject
  err : Option String
  trace : List CallEvent
deriving DecidableEq, Repr

/-- The `CreateClaim` handler of `server.go`, transcribed stage by stage;
each stage appends its call event to the trace before being consulted. -/
def createClaim (s : Server) (request : CreateClaimRequestObject) : CreateClaimResult :=
  if request.identifier = "" then
    ⟨.r400 "Invalid request identifier", none, []⟩
  else
    match s.parseDID request.identifier with
    | .error e => ⟨.r400 e, none, [.parseDID request.identifier]⟩
    | .ok did =>
      match s.loadSchema request.body.credentialSchema with
      | .error e => ⟨.r400 e, none,
          [.parseDID request.identifier, .loadSchema request.body.credentialSchema]⟩
      | .ok schema =>
        let claimReq := newClaimRequest schema did request.body.credentialSchema
          request.body.credentialSubject request.body.expiration request.body.type
          request.body.version request.body.subjectPosition
          request.body.merklizedRootPosition
        let t2 : List CallEvent :=
          [.parseDID request.identifier, .loadSchema request.body.credentialSchema,
           .randInt64]
        match s.randInt64 with
        | .error e => ⟨.r500 e, none, t2⟩
        | .ok nonce =>
          let t3 := t2 ++ [.createVC claimReq nonce]
          match s.createVC claimReq nonce with
          | .error e => ⟨.r500 e, none, t3⟩
          | .ok vc =>
            match lookupStr schema.metadata.uris "jsonLdContext" with
            | none => ⟨.r400 "invalid jsonLdContext", none, t3⟩
            | some jsonLdContext =>
              let credentialType := jsonLdContext ++ "#" ++ request.body.type
              let mtRootPosition :=
                s.defineMerklizedRootPosition schema.metadata claimReq.merklizedRootPosition
              let opts : CoreClaimOptions :=
                ⟨nonce, mtRootPosition, claimReq.version, claimReq.subjectPos, false⟩
              let t4 := t3 ++ [.processSchema claimReq.credentialSchema credentialType vc opts]
              match s.process claimReq.credentialSchema credentialType vc opts with
              | .error e => ⟨.r400 e, none, t4⟩
              | .ok coreClaim =>
                let t5 := t4 ++ [.fromClaimer coreClaim claimReq.credentialSchema credentialType]
                match fromClaimer s coreClaim claimReq.credentialSchema credentialType with
                | .error e => ⟨.r500 e, none, t5⟩
                | .ok claim0 =>
                  let t6 := t5 ++ [.getAuthClaim did]
                  match s.getAuthClaim did with
                  | .error e => ⟨.r500 e, none, t6⟩
                  | .ok authClaim =>
                    let t7 := t6 ++ [.signClaimEntry authClaim coreClaim]
                    match s.signClaimEntry authClaim coreClaim with
                    | .error e => ⟨.r500 e, none, t7⟩
                    | .ok proof =>
                      let issuerDIDString := did.str
                      let claim1 := { claim0 with
                        identifier := some issuerDIDString, issuer := issuerDIDString }
                      let t8 := t7 ++
                        [.getRevocationSource issuerDIDString (goUint64 authClaim.revNonce)]
                      let proof1 := { proof with issuerData := { proof.issuerData with
                        credentialStatus := some (s.getRevocationSource issuerDIDString
                          (goUint64 authClaim.revNonce)) } }
                      let t9 := t8 ++ [.marshalProof proof1]
                      match s.marshalProof proof1 with
                      | .error e => ⟨.r500 e, none, t9⟩
                      | .ok jsonSignatureProof =>
                        let t10 := t9 ++ [.setSignatureProof jsonSignatureProof]
                        match s.setSignatureProofErr jsonSignatureProof with
                        | some e => ⟨.r500 e, none, t10⟩
                        | none =>
                          let claim2 := { claim1 with
                            signatureProof := some jsonSignatureProof }
                          let t11 := t10 ++ [.setData vc]
                          match s.setDataErr vc with
                          | some e => ⟨.r500 e, none, t11⟩
                          | none =>
                            let claim3 := { claim2 with data := some vc }
                            let t12 := t11 ++ [.setCredentialStatus vc.credentialStatus]
                            match s.setCredentialStatusErr vc.credentialStatus with
                            | some e => ⟨.r500 e, none, t12⟩
                            | none =>
                              let claim4 := { claim3 with
                                credentialStatus := some vc.credentialStatus }
                              let t13 := t12 ++ [.save claim4]
                              match s.save claim4 with
                              | .error e => ⟨.r500 e, none, t13⟩
                              | .ok claimResp => ⟨.r201 claimResp.id, none, t13⟩

/-- The response object of `RevokeClaim`: 202 with a status, 404 or 500 with
a message. -/
inductive RevokeClaimResponseObject where
  | r202 (status : String)
  | r404 (message : String)
  | r500 (message : String)
deriving DecidableEq, Repr

/-- The `RevokeClaim` handler of `server.go`. -/
def revokeClaim (s : Server) (request : RevokeClaimRequestObject) :
    RevokeClaimResponseObject × Option String :=
  match s.revoke request.identifier (goUint64 request.nonce) "" with
  | some err =>
    if err.isClaimDoesNotExist then
      (.r404 "the claim does not exist", none)
    else
      (.r500 err.msg, none)
  | none => (.r202 "pending", none)

/-- The identity-state part of the 201 response of `CreateIdentity`. -/
structure IdentityStateView where
  blockNumber : Option Int
  blockTimestamp : Option Int
  claimsTreeRoot : Option String
  createdAt : Int
  modifiedAt : Int
  previousState : Option String
  revocationTreeRoot : Option String
  rootOfRoots : Option String
  state : Option String
  status : String
  txID : Option String
deriving DecidableEq, Repr

/-- The 201 response object of `CreateIdentity`. -/
structure CreateIdentity201JSONResponse where
  identifier : Option String
  immutable : Bool
  relay : String
  state : Option IdentityStateView
deriving DecidableEq, Repr

/-- The `CreateIdentity` handler of `server.go`: on failure of the identity
service's `Create` it returns a nil response together with the error. -/
def createIdentity (s : Server) :
    Option CreateIdentity201JSONResponse × Option String :=
  match s.identityCreate (s.cfgServerUrl ++ ":" ++ toString s.cfgServerPort) with
  | .error e => (none, some e)
  | .ok identity =>
    (some ⟨some identity.identifier, identity.immutable, identity.relay,
      some ⟨identity.state.blockNumber, identity.state.blockTimestamp,
        identity.state.claimsTreeRoot, identity.state.createdAt,
        identity.state.modifiedAt, identity.state.previousState,
        identity.state.revocationTreeRoot, identity.state.rootOfRoots,
        identity.state.state, identity.state.status, identity.state.txID⟩⟩, none)

/-- The four response variants of the API's response contract. -/
inductive ApiVariant where
  | success
  | clientFault (message : String)
  | notFound (message : String)
  | serverFault (message : String)
deriving DecidableEq, Repr

/-- Modelled from the spec: the generated strict-server transport glue (part
of this repository but not under `src/`) turns a handler's returned Go error
into a server-fault (500) response, and a returned response object into
itself; the spec states "any failure from Identity Manager propagates as a
server-fault verbatim (no translation)". -/
def handleCreateIdentity (s : Server) : ApiVariant :=
  match createIdentity s with
  | (_, some e) => .serverFault e
  | (some _, none) => .success
  | (none, none) => .serverFault "internal error"

/-- Classification of a create-claim response object into the response
contract's variants. -/
def classifyCreateClaim : CreateClaimResponseObject → ApiVariant
  | .r201 _ => .success
  | .r400 m => .clientFault m
  | .r500 m => .serverFault m

/-- Classification of a revoke-claim response object into the response
contract's variants. -/
def classifyRevoke : RevokeClaimResponseObject → ApiVariant
  | .r202 _ => .success
  | .r404 m => .notFound m
  | .r500 m => .serverFault m

/-- The 200 response object of `Health`. -/
structure Health200JSONResponse where
  cache : Bool
  db : Bool
deriving DecidableEq, Repr

/-- The `Health` handler of `server.go`: a constant response, inspecting no
cache and no database. -/
def health (_s : Server) : Health200JSONResponse × Option String :=
  (⟨true, false⟩, none)

/-- Number of `save` events in a trace. -/
def saveCount : List CallEvent → Nat
  | [] => 0
  | CallEvent.save _ :: rest => saveCount rest + 1
  | _ :: rest => saveCount rest

/-- Holds when every `save` event of the trace is its last element. -/
def savesOnlyAtEnd : List CallEvent → Bool
  | [] => true
  | [_] => true
  | CallEvent.save _ :: _ :: _ => false
  | _ :: rest => savesOnlyAtEnd rest

/-- A sample identity state used by concrete instantiations. -/
def stateEx : IdentityState :=
  ⟨some 5, some 1700000000, some "ctr", 1700000000, 1700000001, some "prev",
    some "rtr", some "ror", some "st", "confirmed", some "tx"⟩

/-- A sample identity used by concrete instantiations. -/
def identityEx : Identity := ⟨"did:polygonid:polygon:mumbai:2qEx", true, "", stateEx⟩

/-- A sample resolved schema whose metadata carries the string-valued
`jsonLdContext` URI `https://x/ctx`. -/
def schemaEx : Schema := ⟨⟨[("jsonLdContext", GoVal.str "https://x/ctx")]⟩⟩

/-- A sample resolved schema whose metadata has no `jsonLdContext` entry. -/
def schemaNoCtx : Schema := ⟨⟨[("other", GoVal.str "https://y")]⟩⟩

/-- A sample verifiable credential. -/
def vcEx : VC := ⟨⟨"https://status/1"⟩, GoVal.other⟩

/-- A sample core claim. -/
def coreClaimEx : CoreClaim := ⟨GoVal.other⟩

/-- A sample auth claim. -/
def authClaimEx : AuthClaim := ⟨7⟩

/-- A sample signature proof. -/
def proofEx : BJJSignatureProof := ⟨⟨none⟩⟩

/-- A sample stored-record answer of the Claim Store. -/
def recEx : ClaimRecord := ⟨"rid-1"⟩

/-- A concrete server on which every collaborator call succeeds. -/
def sOk : Server where
  cfgServerUrl := "http://localhost"
  cfgServerPort := 3001
  identityCreate := fun _ => .ok identityEx
  parseDID := fun str => .ok ⟨str⟩
  loadSchema := fun _ => .ok schemaEx
  randInt64 := .ok 42
  createVC := fun _ _ => .ok vcEx
  defineMerklizedRootPosition := fun _ p => p
  process := fun _ _ _ _ => .ok coreClaimEx
  fromClaimerErr := fun _ _ _ => none
  getAuthClaim := fun _ => .ok authClaimEx
  signClaimEntry := fun _ _ => .ok proofEx
  getRevocationSource := fun d n => ⟨d ++ "/status/" ++ toString n⟩
  marshalProof := fun _ => .ok "sigproofjson"
  setSignatureProofErr := fun _ => none
  setDataErr := fun _ => none
  setCredentialStatusErr := fun _ => none
  save := fun _ => .ok recEx
  revoke := fun _ _ _ => none

/-- A sample well-formed create-claim request. -/
def reqEx : CreateClaimRequestObject :=
  ⟨"did:x:1", ⟨"https://schema.json", GoVal.other, none, "Age", 0, "", ""⟩⟩

/-- A sample revoke-claim request with nonce 42. -/
def revokeReqEx : RevokeClaimRequestObject := ⟨"did:x:1", 42⟩

/-- The proposition that the collaborator call recorded by a trace event
fails, with error message `e`, on the given server.  `getRevocationSource`
cannot fail (it returns no error in the Go interface), so no failure
proposition is associated with it. -/
def stageFails (s : Server) : CallEvent → String → Prop
  | .parseDID str, e => s.parseDID str = .error e
  | .loadSchema uri, e => s.loadSchema uri = .error e
  | .randInt64, e => s.randInt64 = .error e
  | .createVC cr n, e => s.createVC cr n = .error e
  | .processSchema su ct vc opts, e => s.process su ct vc opts = .error e
  | .fromClaimer cc su ct, e => fromClaimer s cc su ct = .error e
  | .getAuthClaim d, e => s.getAuthClaim d = .error e
  | .signClaimEntry a cc, e => s.signClaimEntry a cc = .error e
  | .getRevocationSource _ _, _ => False
  | .marshalProof p, e => s.marshalProof p = .error e
  | .setSignatureProof j, e => s.setSignatureProofErr j = some e
  | .setData vc, e => s.setDataErr vc = some e
  | .setCredentialStatus cs, e => s.setCredentialStatusErr cs = some e
  | .save c, e => s.save c = .error e

/-- The fault class `server.go` assigns to a failure of each pipeline stage:
DID parsing, schema resolution and CoreClaim encoding (`Process`) map to a
client fault (400) carrying the collaborator's error message, every other
stage maps to a server fault (500). -/
def faultOf : CallEvent → String → CreateClaimResponseObject
  | .parseDID _, e => .r400 e
  | .loadSchema _, e => .r400 e
  | .processSchema _ _ _ _, e => .r400 e
  | _, e => .r500 e

/-- `sOk` with a failing DID parser. -/
def sParseFail : Server := { sOk with parseDID := fun _ => .error "bad did" }

/-- `sOk` with a failing schema resolver. -/
def sLoadFail : Server := { sOk with loadSchema := fun _ => .error "resolver boom" }

/-- `sOk` with an exhausted nonce generator. -/
def sRandFail : Server := { sOk with randInt64 := .error "entropy exhausted" }

/-- `sOk` with a failing credential builder. -/
def sVCFail : Server := { sOk with createVC := fun _ _ => .error "vc boom" }

/-- `sOk` resolving every schema to one without a jsonLdContext entry. -/
def sNoCtx : Server := { sOk with loadSchema := fun _ => .ok schemaNoCtx }

/-- `sOk` with a failing CoreClaim encoder. -/
def sProcessFail : Server := { sOk with process := fun _ _ _ _ => .error "encoder boom" }

/-- `sOk` with a failing domain-claim assembly. -/
def sFromClaimerFail : Server := { sOk with fromClaimerErr := fun _ _ _ => some "fc boom" }

/-- `sOk` with a failing auth-claim fetch. -/
def sAuthFail : Server := { sOk with getAuthClaim := fun _ => .error "auth boom" }

/-- `sOk` with a failing signer. -/
def sSignFail : Server := { sOk with signClaimEntry := fun _ _ => .error "sign boom" }

/-- `sOk` with a failing proof serializer. -/
def sMarshalFail : Server := { sOk with marshalProof := fun _ => .error "marshal boom" }

/-- `sOk` failing to set the signature-proof field. -/
def sSetSigFail : Server := { sOk with setSignatureProofErr := fun _ => some "set sig boom" }

/-- `sOk` failing to set the data field. -/
def sSetDataFail : Server := { sOk with setDataErr := fun _ => some "set data boom" }

/-- `sOk` failing to set the credential-status field. -/
def sSetCSFail : Server := { sOk with setCredentialStatusErr := fun _ => some "set cs boom" }

/-- `sOk` with a failing Claim Store `Save`. -/
def sSaveFail : Server := { sOk with save := fun _ => .error "save boom" }

/-- `sOk` whose Claim Store reports that the claim to revoke does not exist. -/
def sRevokeNotExist : Server :=
  { sOk with revoke := fun _ _ _ => some .claimDoesNotExist }

/-- `sOk` whose Claim Store fails revocation with some other error. -/
def sRevokeOther : Server := { sOk with revoke := fun _ _ _ => some (.other "db down") }

/-- `sOk` with a failing identity service `Create`. -/
def sIdentityFail : Server := { sOk with identityCreate := fun _ => .error "identity boom" }

/-- `reqEx` with an empty path identifier. -/
def reqEmpty : CreateClaimRequestObject := ⟨"", reqEx.body⟩

/-- The claim value that a fully successful run on `sOk` and `reqEx` passes
to the Claim Store's Save. -/
def claimEx : Claim :=
  ⟨some "did:x:1", "did:x:1", "https://x/ctx#Age", some "sigproofjson",
    some vcEx, some vcEx.credentialStatus⟩

/-- C10: for every input, the Health operation returns the constant payload
with Cache = true and Db = false and a nil error, independent of any actual
cache or database state. -/
theorem health_constant_response (s : Server) : health s = (⟨true, false⟩, none) := rfl

/-- C6: RevokeClaim returns 404 with message "the claim does not exist"
exactly when the Claim Store reports the claim-does-not-exist error, returns
a 500 carrying the store's message for every other store failure, and on
success returns 202 with status "pending"; it never returns a Go error. -/
theorem revokeClaim_error_mapping (s : Server) (request : RevokeClaimRequestObject) :
    ((revokeClaim s request).1 = .r404 "the claim does not exist" ↔
      s.revoke request.identifier (goUint64 request.nonce) "" = some .claimDoesNotExist)
    ∧ (∀ m, s.revoke request.identifier (goUint64 request.nonce) "" = some (.other m) →
        (revokeClaim s request).1 = .r500 m)
    ∧ (s.revoke request.identifier (goUint64 request.nonce) "" = none →
        (revokeClaim s request).1 = .r202 "pending")
    ∧ (revokeClaim s request).2 = none := by
  rcases h : s.revoke request.identifier (goUint64 request.nonce) "" with _ | err
  · simp [revokeClaim, h]
  · cases err <;>
      simp [revokeClaim, h, RevokeErr.isClaimDoesNotExist, RevokeErr.msg]

/-- Witness for C6: on a store reporting claim-does-not-exist for nonce 42
the result is 404; on another store failure it is a 500 with the store's
message; on success it is 202 "pending". -/
theorem revokeClaim_error_mapping_witness :
    (revokeClaim sRevokeNotExist revokeReqEx).1 = .r404 "the claim does not exist"
    ∧ (revokeClaim sRevokeOther revokeReqEx).1 = .r500 "db down"
    ∧ (revokeClaim sOk revokeReqEx).1 = .r202 "pending" :=
  ⟨(revokeClaim_error_mapping sRevokeNotExist revokeReqEx).1.mpr rfl,
   (revokeClaim_error_mapping sRevokeOther revokeReqEx).2.1 "db down" rfl,
   (revokeClaim_error_mapping sOk revokeReqEx).2.2.1 rfl⟩

/-- C8: an empty identifier yields 400 "Invalid request identifier" with no
collaborator invoked (empty trace); a non-empty identifier that fails DID
parsing yields a 400 before the schema is resolved (the trace holds only the
parse call). -/
theorem createClaim_identifier_validation (s : Server) (request : CreateClaimRequestObject) :
    (request.identifier = "" →
      createClaim s request = ⟨.r400 "Invalid request identifier", none, []⟩)
    ∧ (request.identifier ≠ "" → ∀ e, s.parseDID request.identifier = .error e →
      createClaim s request = ⟨.r400 e, none, [.parseDID request.identifier]⟩) := by
  constructor
  · intro h
    simp [createClaim, h]
  · intro h e he
    simp [createClaim, h, he]

/-- Witness for C8: the empty identifier and a failing parse, on concrete
servers and requests. -/
theorem createClaim_identifier_validation_witness :
    createClaim sOk reqEmpty = ⟨.r400 "Invalid request identifier", none, []⟩
    ∧ createClaim sParseFail reqEx = ⟨.r400 "bad did", none, [.parseDID "did:x:1"]⟩ :=
  ⟨(createClaim_identifier_validation sOk reqEmpty).1 rfl,
   (createClaim_identifier_validation sParseFail reqEx).2 (by decide) "bad did" rfl⟩

/-- C4: when the nonce generator fails (after a parsed identifier and a
resolved schema), CreateClaim returns a 500 carrying the generator's message
and aborts: the trace stops at the generator call, so in particular the
Claim Store's Save is never invoked. -/
theorem createClaim_nonce_failure (s : Server) (request : CreateClaimRequestObject)
    (did : DID) (schema : Schema) (e : String)
    (hne : request.identifier ≠ "")
    (hp : s.parseDID request.identifier = .ok did)
    (hl : s.loadSchema request.body.credentialSchema = .ok schema)
    (hr : s.randInt64 = .error e) :
    createClaim s request = ⟨.r500 e, none,
      [.parseDID request.identifier, .loadSchema request.body.credentialSchema,
       .randInt64]⟩
    ∧ ∀ c, CallEvent.save c ∉ (createClaim s request).trace := by
  have h : createClaim s request = ⟨.r500 e, none,
      [.parseDID request.identifier, .loadSchema request.body.credentialSchema,
       .randInt64]⟩ := by
    simp [createClaim, hne, hp, hl, hr]
  refine ⟨h, ?_⟩
  intro c
  simp [h]

/-- Witness for C4: a concrete server whose entropy source is exhausted. -/
theorem createClaim_nonce_failure_witness :
    createClaim sRandFail reqEx = ⟨.r500 "entropy exhausted", none,
      [.parseDID "did:x:1", .loadSchema "https://schema.json", .randInt64]⟩
    ∧ ∀ c, CallEvent.save c ∉ (createClaim sRandFail reqEx).trace :=
  createClaim_nonce_failure sRandFail reqEx ⟨"did:x:1"⟩ schemaEx "entropy exhausted"
    (by decide) rfl rfl rfl

/-- Every run of the create-claim handler returns a nil Go error: failures
are encoded in the response object, never in the error return value. -/
theorem createClaimAux_err_none (s : Server) (request : CreateClaimRequestObject)
    (r : CreateClaimResult) (h : createClaim s request = r) : r.err = none := by
  unfold createClaim at h
  dsimp only at h
  repeat' split at h
  all_goals subst h
  all_goals rfl

/-- C7: a failure of the Identity Manager's Create call makes CreateIdentity
return the error, which the transport glue (modelled from the spec) maps to
a server fault; a success maps to the success variant; and CreateClaim and
RevokeClaim never surface an opaque Go error — every outcome is one of the
typed response variants. -/
theorem createIdentity_server_fault_totality (s : Server) :
    (∀ e, s.identityCreate (s.cfgServerUrl ++ ":" ++ toString s.cfgServerPort) = .error e →
      createIdentity s = (none, some e) ∧ handleCreateIdentity s = .serverFault e)
    ∧ (∀ i, s.identityCreate (s.cfgServerUrl ++ ":" ++ toString s.cfgServerPort) = .ok i →
      handleCreateIdentity s = .success)
    ∧ (∀ request : CreateClaimRequestObject, (createClaim s request).err = none)
    ∧ (∀ request : RevokeClaimRequestObject, (revokeClaim s request).2 = none) := by
  refine ⟨?_, ?_, ?_, ?_⟩
  · intro e he
    constructor
    · simp [createIdentity, he]
    · simp [handleCreateIdentity, createIdentity, he]
  · intro i hi
    simp [handleCreateIdentity, createIdentity, hi]
  · intro request
    exact createClaimAux_err_none s request _ rfl
  · intro request
    rcases hr : s.revoke request.identifier (goUint64 request.nonce) "" with _ | err
    · simp [revokeClaim, hr]
    · cases err <;> simp [revokeClaim, hr, RevokeErr.isClaimDoesNotExist]

/-- Witness for C7: a concrete failing identity service yields the
server-fault variant; concrete runs of the three handlers yield typed
variants with nil Go error. -/
theorem createIdentity_server_fault_totality_witness :
    (createIdentity sIdentityFail = (none, some "identity boom")
      ∧ handleCreateIdentity sIdentityFail = .serverFault "identity boom")
    ∧ handleCreateIdentity sOk = .success
    ∧ (createClaim sOk reqEx).err = none
    ∧ (revokeClaim sOk revokeReqEx).2 = none :=
  ⟨(createIdentity_server_fault_totality sIdentityFail).1 "identity boom" rfl,
   (createIdentity_server_fault_totality sOk).2.1 identityEx rfl,
   (createIdentity_server_fault_totality sOk).2.2.1 reqEx,
   (createIdentity_server_fault_totality sOk).2.2.2 revokeReqEx⟩

/-- C2: whenever a collaborator call recorded in the trace fails, the
response is the fault class `server.go` assigns to that stage: schema
resolution and CoreClaim encoding failures yield a 400 carrying the
collaborator's message, while credential build, domain-claim assembly,
auth-claim fetch, signing, serialization and persistence failures each
yield a 500. -/
theorem createClaim_stage_fault_classes (s : Server) (request : CreateClaimRequestObject)
    (r : CreateClaimResult) (h : createClaim s request = r) :
    ∀ ev ∈ r.trace, ∀ e, stageFails s ev e → r.resp = faultOf ev e := by
  unfold createClaim at h
  dsimp only at h
  repeat' split at h
  all_goals subst h
  all_goals (intro ev hev e hf; cases ev <;> simp_all [stageFails, faultOf, fromClaimer])

/-- Witness for C2: concrete servers failing at each pipeline stage produce
the assigned fault class carrying the collaborator's message. -/
theorem createClaim_stage_fault_classes_witness :
    (createClaim sLoadFail reqEx).resp = .r400 "resolver boom"
    ∧ (createClaim sProcessFail reqEx).resp = .r400 "encoder boom"
    ∧ (createClaim sVCFail reqEx).resp = .r500 "vc boom"
    ∧ (createClaim sFromClaimerFail reqEx).resp = .r500 "fc boom"
    ∧ (createClaim sAuthFail reqEx).resp = .r500 "auth boom"
    ∧ (createClaim sSignFail reqEx).resp = .r500 "sign boom"
    ∧ (createClaim sMarshalFail reqEx).resp = .r500 "marshal boom"
    ∧ (createClaim sSetSigFail reqEx).resp = .r500 "set sig boom"
    ∧ (createClaim sSetDataFail reqEx).resp = .r500 "set data boom"
    ∧ (createClaim sSetCSFail reqEx).resp = .r500 "set cs boom"
    ∧ (createClaim sSaveFail reqEx).resp = .r500 "save boom" :=
  ⟨createClaim_stage_fault_classes sLoadFail reqEx _ rfl
      (.loadSchema "https://schema.json") (by decide) "resolver boom" rfl,
   createClaim_stage_fault_classes sProcessFail reqEx _ rfl
      (.processSchema "https://schema.json" "https://x/ctx#Age" vcEx ⟨42, "", 0, "", false⟩)
      (by decide) "encoder boom" rfl,
   createClaim_stage_fault_classes sVCFail reqEx _ rfl
      (.createVC (newClaimRequest schemaEx ⟨"did:x:1"⟩ "https://schema.json" GoVal.other
        none "Age" 0 "" "") 42) (by decide) "vc boom" rfl,
   createClaim_stage_fault_classes sFromClaimerFail reqEx _ rfl
      (.fromClaimer coreClaimEx "https://schema.json" "https://x/ctx#Age")
      (by decide) "fc boom" rfl,
   createClaim_stage_fault_classes sAuthFail reqEx _ rfl
      (.getAuthClaim ⟨"did:x:1"⟩) (by decide) "auth boom" rfl,
   createClaim_stage_fault_classes sSignFail reqEx _ rfl
      (.signClaimEntry authClaimEx coreClaimEx) (by decide) "sign boom" rfl,
   createClaim_stage_fault_classes sMarshalFail reqEx _ rfl
      (.marshalProof ⟨⟨some ⟨"did:x:1/status/7"⟩⟩⟩) (by decide) "marshal boom" rfl,
   createClaim_stage_fault_classes sSetSigFail reqEx _ rfl
      (.setSignatureProof "sigproofjson") (by decide) "set sig boom" rfl,
   createClaim_stage_fault_classes sSetDataFail reqEx _ rfl
      (.setData vcEx) (by decide) "set data boom" rfl,
   createClaim_stage_fault_classes sSetCSFail reqEx _ rfl
      (.setCredentialStatus vcEx.credentialStatus) (by decide) "set cs boom" rfl,
   createClaim_stage_fault_classes sSaveFail reqEx _ rfl
      (.save claimEx) (by decide) "save boom" rfl⟩

/-- C3: when the resolved schema has no string-valued jsonLdContext URI in
its metadata, no cryptographic stage is ever invoked — the trace contains no
CoreClaim encoding, no domain-claim assembly, no auth-claim fetch, no
signing and no Save — and (the earlier, schema-independent stages
succeeding) the response is a 400 with message "invalid jsonLdContext". -/
theorem createClaim_missing_jsonld_context (s : Server) (request : CreateClaimRequestObject)
    (r : CreateClaimResult) (h : createClaim s request = r)
    (hne : request.identifier ≠ "") (schema : Schema)
    (hl : s.loadSchema request.body.credentialSchema = .ok schema)
    (hctx : lookupStr schema.metadata.uris "jsonLdContext" = none) :
    (∀ a cc, CallEvent.signClaimEntry a cc ∉ r.trace)
    ∧ (∀ su ct vc opts, CallEvent.processSchema su ct vc opts ∉ r.trace)
    ∧ (∀ cc su ct, CallEvent.fromClaimer cc su ct ∉ r.trace)
    ∧ (∀ d, CallEvent.getAuthClaim d ∉ r.trace)
    ∧ (∀ c, CallEvent.save c ∉ r.trace)
    ∧ (∀ did nonce vc, s.parseDID request.identifier = .ok did →
        s.randInt64 = .ok nonce →
        s.createVC (newClaimRequest schema did request.body.credentialSchema
          request.body.credentialSubject request.body.expiration request.body.type
          request.body.version request.body.subjectPosition
          request.body.merklizedRootPosition) nonce = .ok vc →
        r.resp = .r400 "invalid jsonLdContext" ∧ r.err = none) := by
  unfold createClaim at h
  dsimp only at h
  repeat' split at h
  all_goals subst h
  all_goals refine ⟨?_, ?_, ?_, ?_, ?_, ?_⟩
  all_goals intros
  all_goals simp_all

/-- Witness for C3: a server resolving a context-free schema never signs and
answers 400 "invalid jsonLdContext". -/
theorem createClaim_missing_jsonld_context_witness :
    CallEvent.signClaimEntry authClaimEx coreClaimEx ∉ (createClaim sNoCtx reqEx).trace
    ∧ (createClaim sNoCtx reqEx).resp = .r400 "invalid jsonLdContext"
    ∧ (createClaim sNoCtx reqEx).err = none :=
  ⟨(createClaim_missing_jsonld_context sNoCtx reqEx _ rfl (by decide) schemaNoCtx
      rfl rfl).1 authClaimEx coreClaimEx,
   ((createClaim_missing_jsonld_context sNoCtx reqEx _ rfl (by decide) schemaNoCtx
      rfl rfl).2.2.2.2.2 ⟨"did:x:1"⟩ 42 vcEx rfl rfl rfl).1,
   ((createClaim_missing_jsonld_context sNoCtx reqEx _ rfl (by decide) schemaNoCtx
      rfl rfl).2.2.2.2.2 ⟨"did:x:1"⟩ 42 vcEx rfl rfl rfl).2⟩

/-- Success shape of the modelled `domain.FromClaimer`: it succeeds exactly
when its error oracle reports no error, and then the built claim records the
given credential type with every handler-stamped field still unset. -/
theorem fromClaimerAux_ok_iff (s : Server) (cc : CoreClaim) (su ct : String) (c : Claim) :
    fromClaimer s cc su ct = .ok c ↔
      s.fromClaimerErr cc su ct = none ∧ c = ⟨none, "", ct, none, none, none⟩ := by
  unfold fromClaimer
  rcases he : s.fromClaimerErr cc su ct with _ | e <;> simp [he, eq_comm]

/-- C9: every claim passed to Save records as its credential type the
schema's jsonLdContext URI concatenated with "#" and the requested claim
type. -/
theorem createClaim_credential_type (s : Server) (request : CreateClaimRequestObject)
    (r : CreateClaimResult) (h : createClaim s request = r)
    (schema : Schema) (ctx : String)
    (hl : s.loadSchema request.body.credentialSchema = .ok schema)
    (hctx : lookupStr schema.metadata.uris "jsonLdContext" = some ctx) :
    ∀ c, CallEvent.save c ∈ r.trace → c.schemaType = ctx ++ "#" ++ request.body.type := by
  unfold createClaim at h
  dsimp only at h
  repeat' split at h
  all_goals subst h
  all_goals intro c hc
  all_goals simp_all [fromClaimerAux_ok_iff]

/-- Witness for C9: on a schema with context "https://x/ctx" and claim type
"Age", the claim saved by a successful run records credential type
"https://x/ctx#Age". -/
theorem createClaim_credential_type_witness :
    CallEvent.save claimEx ∈ (createClaim sOk reqEx).trace
    ∧ claimEx.schemaType = "https://x/ctx#Age" :=
  ⟨by decide,
   createClaim_credential_type sOk reqEx _ rfl schemaEx "https://x/ctx" rfl rfl
     claimEx (by decide)⟩

/-- C5: in every run of CreateClaim, the Claim Store's Save — the only
store-mutating collaborator call — appears at most once in the trace and
only as its very last event, and whenever it was invoked the run's outcome
is decided by that very Save call (success with its record id, or a 500
carrying its error); hence any failure at an earlier stage leaves the trace
without any Save and the store untouched. -/
theorem createClaim_single_final_save (s : Server) (request : CreateClaimRequestObject)
    (r : CreateClaimResult) (h : createClaim s request = r) :
    saveCount r.trace ≤ 1
    ∧ savesOnlyAtEnd r.trace = true
    ∧ (∀ c, CallEvent.save c ∈ r.trace →
        (∃ rec, s.save c = .ok rec ∧ r.resp = .r201 rec.id)
        ∨ (∃ e, s.save c = .error e ∧ r.resp = .r500 e)) := by
  unfold createClaim at h
  dsimp only at h
  repeat' split at h
  all_goals subst h
  all_goals refine ⟨by first | exact Nat.zero_le 1 | exact Nat.le_refl 1, by rfl, ?_⟩
  all_goals intro c hc
  all_goals simp_all

/-- Witness for C5: a concrete successful run has exactly one Save, at the
end of the trace, and its record decides the response. -/
theorem createClaim_single_final_save_witness :
    saveCount (createClaim sOk reqEx).trace ≤ 1
    ∧ savesOnlyAtEnd (createClaim sOk reqEx).trace = true
    ∧ ((∃ rec, sOk.save claimEx = .ok rec
          ∧ (createClaim sOk reqEx).resp = .r201 rec.id)
        ∨ (∃ e, sOk.save claimEx = .error e
          ∧ (createClaim sOk reqEx).resp = .r500 e)) :=
  ⟨(createClaim_single_final_save sOk reqEx _ rfl).1,
   (createClaim_single_final_save sOk reqEx _ rfl).2.1,
   (createClaim_single_final_save sOk reqEx _ rfl).2.2 claimEx (by decide)⟩

/-- C1: CreateClaim never returns a Go error next to its response, and on
every successful (201) outcome the returned id is the record id generated by
the Claim Store for the claim passed to Save, whose Issuer and Identifier
both equal the string form of the parsed request DID and whose
SignatureProof, Data and CredentialStatus fields are all set. -/
theorem createClaim_success_shape (s : Server) (request : CreateClaimRequestObject)
    (r : CreateClaimResult) (h : createClaim s request = r) :
    r.err = none
    ∧ ∀ id, r.resp = .r201 id →
        ∃ did c rec, s.parseDID request.identifier = .ok did
          ∧ CallEvent.save c ∈ r.trace
          ∧ s.save c = .ok rec ∧ id = rec.id
          ∧ c.identifier = some did.str ∧ c.issuer = did.str
          ∧ c.signatureProof.isSome ∧ c.data.isSome ∧ c.credentialStatus.isSome := by
  refine ⟨createClaimAux_err_none s request r h, ?_⟩
  unfold createClaim at h
  dsimp only at h
  repeat' split at h
  all_goals subst h
  all_goals intro id hid
  all_goals simp_all

/-- Witness for C1: the concrete all-succeeding server returns the store's
record id and saved a fully-stamped claim. -/
theorem createClaim_success_shape_witness :
    (createClaim sOk reqEx).err = none
    ∧ (∃ did c rec, sOk.parseDID reqEx.identifier = .ok did
        ∧ CallEvent.save c ∈ (createClaim sOk reqEx).trace
        ∧ sOk.save c = .ok rec ∧ "rid-1" = rec.id
        ∧ c.identifier = some did.str ∧ c.issuer = did.str
        ∧ c.signatureProof.isSome ∧ c.data.isSome ∧ c.credentialStatus.isSome) :=
  ⟨(createClaim_success_shape sOk reqEx _ rfl).1,
   (createClaim_success_shape sOk reqEx _ rfl).2 "rid-1" rfl⟩
